import Mathlib

/-!
Shallow embedding of the core of the Rift tree-walking interpreter
(src/lib/ast/parser.cc, src/lib/ast/eval.cc, src/lib/ast/env.cc):
token/value data model, environment scope chain, recursive-descent
parser and AST evaluator, together with theorems checking the
natural-language specification against this code.
-/

namespace Rift

/-- Token type tags, from the TokenType enumeration used by
parser.cc and eval.cc (scanner headers are not part of the core
sources; the set of tags is taken from the tags those files use).
`EOF_T` stands for the end-of-input token the scanner appends. -/
inductive TokenType where
  | NIL | TRUE | FALSE
  | NUMERICLITERAL | STRINGLITERAL | IDENTIFIER | C_IDENTIFIER
  | FUN | VAR | PRINT | IF | RETURN | FOR | WHILE | CLASS
  | LEFT_PAREN | RIGHT_PAREN | LEFT_BRACE | RIGHT_BRACE | SEMICOLON
  | PLUS | MINUS | STAR | SLASH
  | BANG | BANG_EQUAL | EQUAL | EQUAL_EQUAL
  | LESS | LESS_EQUAL | GREATER | GREATER_EQUAL
  | LOG_AND | LOG_OR | NULLISH_COAL
  | EOF_T
deriving DecidableEq, Repr

mutual

/-- The dynamically typed `literal` payload of a Token (C++ `std::any`).
`empty` is a default-constructed `any` (no payload); `fn` holds a
`Block*` as stored by visit_decl_func.  The C++ numeric payload types
(double, int, unsigned, ...) are collapsed into a single `num : Int`
variant. -/
inductive AnyVal where
  | empty
  | null
  | num (n : Int)
  | str (s : String)
  | boolean (b : Bool)
  | fn (b : Block)

/-- A Token: `{type, lexeme, literal, line}`, serving both as a lexer
token and as a runtime value. -/
inductive Token where
  | mk (type : TokenType) (lexeme : String) (literal : AnyVal) (line : Nat)

/-- Expression AST nodes (grmr.hh variants used by parser.cc/eval.cc). -/
inductive Expr where
  | literal (value : Token)
  | unary (op : Token) (expr : Expr)
  | binary (left : Expr) (op : Token) (right : Expr)
  | grouping (expr : Expr)
  | assign (name : Token) (value : Expr)
  | ternary (condition : Expr) (left : Expr) (right : Expr)
  | call (name : Expr) (args : List Expr)

/-- Statement AST nodes.  The C++ members are nullable `unique_ptr`s,
hence the `Option`. -/
inductive Stmt where
  | stmtExpr (expr : Option Expr)
  | stmtPrint (expr : Option Expr)
  | stmtReturn (expr : Option Expr)

/-- Declaration AST nodes.  `Block` is itself a `Decl` in the C++
class hierarchy (program() pushes a block into the decl list), which
`declBlock` represents. -/
inductive Decl where
  | declStmt (stmt : Stmt)
  | declVar (identifier : Token) (expr : Option Expr)
  | declFunc (name : Token) (params : List Token) (blk : Option Block)
  | declBlock (b : Block)

/-- A block: a list of declarations. -/
inductive Block where
  | mk (decls : List Decl)

end

/-- A program: a list of top-level declarations. -/
inductive Program where
  | mk (decls : List Decl)

/-- Field accessor: a token's type tag. -/
def Token.type : Token → TokenType
  | .mk t _ _ _ => t

/-- Field accessor: a token's lexeme. -/
def Token.lexeme : Token → String
  | .mk _ l _ _ => l

/-- Field accessor: a token's dynamic payload (C++ `literal` / `getLiteral()`). -/
def Token.literal : Token → AnyVal
  | .mk _ _ v _ => v

/-- Field accessor: a token's source line. -/
def Token.line : Token → Nat
  | .mk _ _ _ n => n

/-- The default-constructed `Token()`: type `NIL`, empty lexeme, empty
payload.  This is the sentinel value returned by `Environment::getEnv`
for an absent binding. -/
def Token.default : Token := .mk .NIL "" .empty 0

/-- Modelled from the spec: `Token::operator==` is not among the core
sources (tokens.hh is a scanner header); per the sentinel contract of
section 4.1 callers distinguish tokens by type and lexeme, so equality
compares the `type` and `lexeme` fields.  Used by the two parse-time
checks `getEnv(...) == Token()` / `!= Token()` in parser.cc. -/
def tokenEq (a b : Token) : Bool :=
  a.type = b.type && a.lexeme = b.lexeme

/-- Modelled from the spec: `castString` (utils/literals.hh, not among
the core sources) stringifies a token; eval.cc uses it as the
environment key of an identifier token (whose bindings are created
under `identifier.lexeme`), so it returns the lexeme. -/
def castString (t : Token) : String := t.lexeme

/-- Modelled from the spec: `castNumberString` on a token (numeric
tokens produced by the evaluator carry their textual form as lexeme). -/
def castNumberString (t : Token) : String := t.lexeme

/-- Modelled from the spec: `castNumberString` on an `any` holding the
numeric result of `any_arithmetic`. -/
def castNumAnyString : AnyVal → String
  | .num n => toString n
  | _ => ""

/-- Modelled from the spec: `castAnyString` (utils/literals.hh)
stringifies any token; runtime values produced by the evaluator carry
their display form in the lexeme. -/
def castAnyString (t : Token) : String := t.lexeme

/-- `isNumber(tok)`: `tok.type == NUMERICLITERAL` (spec section 4.4). -/
def isNumber (t : Token) : Bool := t.type = .NUMERICLITERAL

/-- `isString(tok)`: `tok.type == STRINGLITERAL` (spec section 4.4). -/
def isString (t : Token) : Bool := t.type = .STRINGLITERAL

/-- Modelled from the spec: `truthy` (declared in eval.hh, not among
the core sources): `TRUE` is true, `FALSE` is false, `NIL` is false,
any other token is true (spec section 4.3). -/
def truthy (t : Token) : Bool :=
  match t.type with
  | .TRUE => true
  | .FALSE => false
  | .NIL => false
  | _ => true

/-- An `Environment` scope node: a `values` map plus an optional
`child` pointer to the nested scope pushed most recently.  `leafScope`
is a node whose `child` is null; `withChild` one whose `child` is set.
The map is represented as an association list with unique keys. -/
inductive Environment where
  | leafScope (values : List (String × Token))
  | withChild (values : List (String × Token)) (child : Environment)

namespace Environment

/-- `values.contains(name)` on the map of one scope. -/
def containsVal (values : List (String × Token)) (name : String) : Bool :=
  (values.lookup name).isSome

/-- `values[name] = value` on a key already present: replace in place. -/
def replaceVal (values : List (String × Token)) (name : String) (value : Token) :
    List (String × Token) :=
  values.map (fun p => if p.1 = name then (name, value) else p)

/-- `Environment::getEnv` (env.cc): if the current scope's map does not
contain the name, recurse into the child if there is one, else return
the default `Token()` sentinel; otherwise return the map entry. -/
def getEnv : Environment → String → Token
  | .leafScope values, name =>
    match values.lookup name with
    | some t => t
    | none => Token.default
  | .withChild values child, name =>
    match values.lookup name with
    | some t => t
    | none => child.getEnv name

/-- `Environment::setEnv` (env.cc): overwrite if the name exists at the
current level; else recurse into the child if there is one; else bind
at the current level. -/
def setEnv : Environment → String → Token → Environment
  | .leafScope values, name, value =>
    if containsVal values name then .leafScope (replaceVal values name value)
    else .leafScope (values ++ [(name, value)])
  | .withChild values child, name, value =>
    if containsVal values name then .withChild (replaceVal values name value) child
    else .withChild values (child.setEnv name value)

/-- eval.cc calls the three-argument overload
`setEnv(name, value, is_const_identifier)`; the const flag does not
affect the binding semantics described in spec section 4.1, so it
delegates to `setEnv`. -/
def setEnv3 (e : Environment) (name : String) (value : Token) (_isConst : Bool) :
    Environment := e.setEnv name value

/-- Modelled from the spec: `Environment::addChild` (env.hh, not among
the core sources) appends a fresh empty scope at the deepest position:
walk to the leaf, then set its child (spec section 3.3). -/
def addChild : Environment → Environment
  | .leafScope values => .withChild values (.leafScope [])
  | .withChild values child => .withChild values child.addChild

/-- Modelled from the spec: `Environment::removeChild` (env.hh, not
among the core sources) pops the deepest scope: walk to the parent of
the leaf and clear its child (spec section 3.3).  On a chain with no
child there is nothing to pop. -/
def removeChild : Environment → Environment
  | .leafScope values => .leafScope values
  | .withChild values (.leafScope _) => .leafScope values
  | .withChild values child => .withChild values child.removeChild

/-- The scope depth of a chain (number of scope nodes). -/
def depth : Environment → Nat
  | .leafScope _ => 1
  | .withChild _ child => 1 + child.depth

/-- The scope chain as a list of per-scope maps, root scope first. -/
def frames : Environment → List (List (String × Token))
  | .leafScope values => [values]
  | .withChild values child => values :: child.frames

end Environment

/-- A single-quote character, used inside diagnostic messages. -/
def sq : String := String.mk [Char.ofNat 39]

namespace Parser

/-- Parser cursor state: the token stream and the `current` index.
(The C++ parser also keeps a `line` counter used only for diagnostics
and for the throw-away pattern tokens given to `match`; it is omitted,
and tokens constructed by the parser carry line 0.) -/
structure PState where
  tokens : List Token
  current : Nat

/-- A `ParserException`.  `fuelOut` is an artifact of the fuel-bounded
embedding and is raised by no modelled code path. -/
inductive ParseError where
  | fuelOut
  | err (msg : String)
deriving DecidableEq

/-- The parser computation type: the global `Environment` singleton is
read-only during parsing (existence checks only), the cursor state is
threaded, and a thrown `ParserException` aborts the computation. -/
def ParserM (α : Type) : Type :=
  Environment → PState → Except ParseError (α × PState)

instance : Monad ParserM where
  pure a := fun _ s => .ok (a, s)
  bind m f := fun env s =>
    match m env s with
    | .ok (a, s') => f a env s'
    | .error e => .error e

/-- Read the global `Environment` singleton. -/
def readEnv : ParserM Environment := fun env s => .ok (env, s)

/-- Raise a `ParserException` (as `consume` and `error::report` do). -/
def throwP {α : Type} (e : ParseError) : ParserM α := fun _ _ => .error e

/-- The token at an index; out of range yields the end-of-input token. -/
def tokAt (s : PState) (i : Nat) : Token :=
  s.tokens.getD i (Token.mk .EOF_T "" .empty 0)

/-- `peek()`: the current token, not consumed. -/
def peekT : ParserM Token := fun _ s => .ok (tokAt s s.current, s)

/-- `peekNext()`: the token after the current one. -/
def peekNextT : ParserM Token := fun _ s => .ok (tokAt s (s.current + 1), s)

/-- `peekPrev(k)`: the token `k` positions before the current one. -/
def peekPrevT (k : Nat) : ParserM Token := fun _ s => .ok (tokAt s (s.current - k), s)

/-- `prevance()`: rewind the cursor by one. -/
def prevanceT : ParserM Unit := fun _ s => .ok ((), { s with current := s.current - 1 })

/-- `atEnd()`: the cursor is past the last token. -/
def atEndT : ParserM Bool := fun _ s => .ok (decide (s.tokens.length ≤ s.current), s)

/-- `match({types})`: consume the current token if its type is among
the given types. -/
def matchT (tys : List TokenType) : ParserM Bool := fun _ s =>
  if tys.contains (tokAt s s.current).type then
    .ok (true, { s with current := s.current + 1 })
  else .ok (false, s)

/-- `match_kw(type)`: consume the current token if it is the given
keyword type. -/
def matchKw (ty : TokenType) : ParserM Bool := matchT [ty]

/-- The `peek(token)` overload: check the current token's type without
consuming. -/
def peekIs (ty : TokenType) : ParserM Bool := fun _ s =>
  .ok (decide ((tokAt s s.current).type = ty), s)

/-- `consume(expected, error)`: advance past the current token and
return it if it has the expected type, else raise the given
`ParserException`. -/
def consume (ty : TokenType) (msg : String) : ParserM Token := fun _ s =>
  let t := tokAt s s.current
  if t.type = ty then .ok (t, { s with current := s.current + 1 })
  else .error (.err msg)

end Parser

/-- The declarations of a block. -/
def Block.decls : Block → List Decl
  | .mk ds => ds

namespace Parser

mutual

/-- `Parser::primary` (parser.cc): literals, identifiers, and a
parenthesized expression, which is returned directly (no `Grouping`
node is constructed).  Returns null (`none`) when nothing matches. -/
def primary : Nat → ParserM (Option Expr)
  | 0 => throwP .fuelOut
  | fuel + 1 => do
    if (← matchT [.FALSE]) then
      return some (.literal (Token.mk .FALSE "false" (.str "") 0))
    if (← matchT [.TRUE]) then
      return some (.literal (Token.mk .TRUE "true" (.str "") 0))
    if (← matchT [.NIL]) then
      return some (.literal (Token.mk .NIL "nil" (.str "") 0))
    if (← matchT [.NUMERICLITERAL]) then
      return some (.literal (← peekPrevT 1))
    if (← matchT [.STRINGLITERAL]) then
      return some (.literal (← peekPrevT 1))
    if (← matchT [.IDENTIFIER]) then
      return some (.literal (← peekPrevT 1))
    if (← matchT [.LEFT_PAREN]) then
      let e ← expression fuel
      let _ ← consume .RIGHT_PAREN "Expected ) after expression"
      return e
    return none

/-- `Parser::unary` (parser.cc): `!`/`-` prefix operators, else
`primary`; a missing operand is reported as a parse error. -/
def unary : Nat → ParserM (Option Expr)
  | 0 => throwP .fuelOut
  | fuel + 1 => do
    if (← matchT [.BANG]) then
      let op ← peekPrevT 1
      let right ← unary fuel
      match right with
      | none => throwP (.err "Expected expression after unary operator")
      | some r => return some (.unary op r)
    if (← matchT [.MINUS]) then
      let op ← peekPrevT 1
      let right ← unary fuel
      match right with
      | none => throwP (.err "Expected expression after unary operator")
      | some r => return some (.unary op r)
    primary fuel

/-- `Parser::factor` (parser.cc): left-associative `*`/`/` level. -/
def factor : Nat → ParserM (Option Expr)
  | 0 => throwP .fuelOut
  | fuel + 1 => do
    let e ← unary fuel
    factor_loop fuel e

/-- The while loop of `Parser::factor`. -/
def factor_loop : Nat → Option Expr → ParserM (Option Expr)
  | 0, _ => throwP .fuelOut
  | fuel + 1, e => do
    if (← matchT [.STAR, .SLASH]) then
      let op ← peekPrevT 1
      let right ← unary fuel
      match e, right with
      | none, _ => throwP (.err "Expected number before factor operator")
      | _, none => throwP (.err "Expected number after factor operator")
      | some l, some r => factor_loop fuel (some (.binary l op r))
    else
      pure e

/-- `Parser::term` (parser.cc): left-associative `-`/`+` level. -/
def term : Nat → ParserM (Option Expr)
  | 0 => throwP .fuelOut
  | fuel + 1 => do
    let e ← factor fuel
    term_loop fuel e

/-- The while loop of `Parser::term`. -/
def term_loop : Nat → Option Expr → ParserM (Option Expr)
  | 0, _ => throwP .fuelOut
  | fuel + 1, e => do
    if (← matchT [.MINUS, .PLUS]) then
      let op ← peekPrevT 1
      let right ← factor fuel
      match e, right with
      | none, _ => throwP (.err "Expected number before term operator")
      | _, none => throwP (.err "Expected number after term operator")
      | some l, some r => term_loop fuel (some (.binary l op r))
    else
      pure e

/-- `Parser::comparison` (parser.cc): left-associative `>`, `>=`,
`<`, `<=` level. -/
def comparison : Nat → ParserM (Option Expr)
  | 0 => throwP .fuelOut
  | fuel + 1 => do
    let e ← term fuel
    comparison_loop fuel e

/-- The while loop of `Parser::comparison`. -/
def comparison_loop : Nat → Option Expr → ParserM (Option Expr)
  | 0, _ => throwP .fuelOut
  | fuel + 1, e => do
    if (← matchT [.GREATER, .GREATER_EQUAL, .LESS, .LESS_EQUAL]) then
      let op ← peekPrevT 1
      let right ← term fuel
      match e, right with
      | none, _ => throwP (.err "Expected expression before comparison operator")
      | _, none => throwP (.err "Expected expression after comparison operator")
      | some l, some r => comparison_loop fuel (some (.binary l op r))
    else
      pure e

/-- `Parser::equality` (parser.cc): left-associative `!=`/`==` level. -/
def equality : Nat → ParserM (Option Expr)
  | 0 => throwP .fuelOut
  | fuel + 1 => do
    let e ← comparison fuel
    equality_loop fuel e

/-- The while loop of `Parser::equality`. -/
def equality_loop : Nat → Option Expr → ParserM (Option Expr)
  | 0, _ => throwP .fuelOut
  | fuel + 1, e => do
    if (← matchT [.BANG_EQUAL, .EQUAL_EQUAL]) then
      let op ← peekPrevT 1
      let right ← comparison fuel
      match e, right with
      | none, _ => throwP (.err "Expected expression before equality operator")
      | _, none => throwP (.err "Expected expression after equality operator")
      | some l, some r => equality_loop fuel (some (.binary l op r))
    else
      pure e

/-- `Parser::assignment` (parser.cc): if the token after the current
one is `=` and the current token is an identifier, parse an
assignment; the identifier must already exist in the (global)
Environment — the parse-time declared-check — else a parser error is
raised.  Otherwise fall back to `equality`. -/
def assignment : Nat → ParserM (Option Expr)
  | 0 => throwP .fuelOut
  | fuel + 1 => do
    let nt ← peekNextT
    if nt.type = .EQUAL then
      if (← matchT [.IDENTIFIER]) then
        if (← peekIs .SEMICOLON) then
          prevanceT
          equality fuel
        else
          let idt ← peekPrevT 1
          let _ ← consume .EQUAL "Expected = after variable name"
          let e ← assignment fuel
          match e with
          | none => throwP (.err "Expected expression after variable name")
          | some v => do
            let env ← readEnv
            if tokenEq (env.getEnv (castString idt)) Token.default then
              throwP (.err ("Undefined variable " ++ sq ++ castString idt ++ sq))
            else
              return some (.assign idt v)
      else
        equality fuel
    else
      equality fuel

/-- `Parser::expression` (parser.cc): delegates to `assignment`. -/
def expression : Nat → ParserM (Option Expr)
  | 0 => throwP .fuelOut
  | fuel + 1 => assignment fuel

/-- `Parser::statement_expression` (parser.cc): an expression followed
by `;`. -/
def statement_expression : Nat → ParserM Stmt
  | 0 => throwP .fuelOut
  | fuel + 1 => do
    let e ← expression fuel
    let _ ← consume .SEMICOLON "Expected ; after expression"
    pure (.stmtExpr e)

/-- `Parser::statement_print` (parser.cc): `( expression ) ;` after
the already-consumed `print` keyword. -/
def statement_print : Nat → ParserM Stmt
  | 0 => throwP .fuelOut
  | fuel + 1 => do
    let _ ← consume .LEFT_PAREN "Expected ( after print"
    let e ← expression fuel
    let _ ← consume .RIGHT_PAREN "Expected ) after print"
    let _ ← consume .SEMICOLON "Expected ; after print statement"
    pure (.stmtPrint e)

/-- `Parser::declaration_statement` (parser.cc): a print statement if
the `print` keyword matches, else an expression statement. -/
def declaration_statement : Nat → ParserM Decl
  | 0 => throwP .fuelOut
  | fuel + 1 => do
    if (← matchKw .PRINT) then
      let s ← statement_print fuel
      pure (.declStmt s)
    else
      let s ← statement_expression fuel
      pure (.declStmt s)

/-- `Parser::declaration_variable` (parser.cc): consume the
identifier, rewind, raise "already declared" if the name is bound in
the (global) Environment, then parse the initializer via `assignment`
(so `var x = 10` re-parses `x = 10` as an `Assign` expression) and the
trailing `;`. -/
def declaration_variable : Nat → ParserM Decl
  | 0 => throwP .fuelOut
  | fuel + 1 => do
    let idt ← consume .IDENTIFIER "Expected variable name"
    prevanceT
    let env ← readEnv
    if !(tokenEq (env.getEnv (castString idt)) Token.default) then
      throwP (.err ("Variable " ++ sq ++ castString idt ++ sq ++ " already declared"))
    else do
      let e ← assignment fuel
      let _ ← consume .SEMICOLON "Expected ; after variable assignment"
      pure (.declVar idt e)

/-- `Parser::block` (parser.cc): declarations until `}`.  A nested
`{` recursively parses an inner block and splices the inner block's
declarations directly into this block's declaration list (no child
`Block` node is kept). -/
def block : Nat → ParserM Block
  | 0 => throwP .fuelOut
  | fuel + 1 => do
    let decls ← block_loop fuel []
    if (← matchT [.RIGHT_BRACE]) then
      pure (Block.mk decls)
    else
      throwP (.err "Expected \x7d after block")

/-- The while loop of `Parser::block`. -/
def block_loop : Nat → List Decl → ParserM (List Decl)
  | 0, _ => throwP .fuelOut
  | fuel + 1, acc => do
    let e ← atEndT
    let rb ← peekIs .RIGHT_BRACE
    if !e && !rb then
      if (← matchT [.LEFT_BRACE]) then
        let inner ← block fuel
        block_loop fuel (acc ++ inner.decls)
      else if (← matchKw .VAR) then
        let d ← declaration_variable fuel
        block_loop fuel (acc ++ [d])
      else
        let d ← declaration_statement fuel
        block_loop fuel (acc ++ [d])
    else
      pure acc

/-- `Parser::program` (parser.cc): top-level declarations until the
end of input.  Note there is no handling of the `fun` keyword. -/
def program : Nat → ParserM Program
  | 0 => throwP .fuelOut
  | fuel + 1 => do
    let decls ← program_loop fuel []
    pure (Program.mk decls)

/-- The while loop of `Parser::program`. -/
def program_loop : Nat → List Decl → ParserM (List Decl)
  | 0, _ => throwP .fuelOut
  | fuel + 1, acc => do
    if !(← atEndT) then
      if (← matchKw .VAR) then
        let d ← declaration_variable fuel
        program_loop fuel (acc ++ [d])
      else if (← matchT [.LEFT_BRACE]) then
        let b ← block fuel
        program_loop fuel (acc ++ [.declBlock b])
      else
        let d ← declaration_statement fuel
        program_loop fuel (acc ++ [d])
    else
      pure acc

end

/-- `Parser::parse` (parser.cc): run `program` on the token stream,
catching any `ParserException` as a null result. -/
def parse (fuel : Nat) (tokens : List Token) (env : Environment) : Option Program :=
  match program fuel env ⟨tokens, 0⟩ with
  | .ok (p, _) => some p
  | .error _ => none

end Parser

/-- The non-normal exits of the evaluator: `std::runtime_error` (with
its message), the `StmtReturnException` carrying a returned value,
`std::out_of_range` from `.at` on an empty string, a failed
`std::any_cast`, a dereference of a null AST child (undefined
behaviour in the C++), and the fuel artifact of this embedding. -/
inductive EvalErr where
  | rte (msg : String)
  | returnSig (t : Token)
  | outOfRange
  | badCast
  | nullDeref
  | fuelOut

/-- The evaluator's mutable context: the global `Environment`
singleton and the lines written to stdout so far. -/
structure EvalState where
  env : Environment
  output : List String

/-- The evaluator computation type.  The state is threaded even when
an exception is raised, because the C++ environment is a global
singleton whose mutations survive stack unwinding. -/
def EvalM (α : Type) : Type := EvalState → Except EvalErr α × EvalState

instance : Monad EvalM where
  pure a := fun s => (.ok a, s)
  bind m f := fun s =>
    match m s with
    | (.ok a, s') => f a s'
    | (.error e, s') => (.error e, s')

/-- Raise an evaluator exception (keeping the state). -/
def throwE {α : Type} (e : EvalErr) : EvalM α := fun s => (.error e, s)

/-- Lift a pure fallible computation into the evaluator. -/
def liftE {α : Type} (x : Except EvalErr α) : EvalM α := fun s => (x, s)

/-- Append one line to stdout (`std::cout << res << std::endl`). -/
def printOut (line : String) : EvalM Unit :=
  fun s => (.ok (), { s with output := s.output ++ [line] })

/-- Modelled from the spec: `any_arithmetic` (utils, section 4.4)
dispatches over the numeric payloads of both tokens; arithmetic
operators yield a numeric `any`, `==` a boolean one.  A non-numeric
payload corresponds to a failing `std::any_cast`. -/
def any_arithmetic (l r : Token) (op : Token) : Except EvalErr AnyVal :=
  match l.literal, r.literal with
  | .num m, .num n =>
    match op.type with
    | .PLUS => .ok (.num (m + n))
    | .MINUS => .ok (.num (m - n))
    | .STAR => .ok (.num (m * n))
    | .SLASH => .ok (.num (m / n))
    | .EQUAL_EQUAL => .ok (.boolean (m = n))
    | _ => .error .badCast
  | _, _ => .error .badCast

/-- Modelled from the spec: the shared comparison macro `_BOOL_LOGIC`
(utils/macros.hh, not among the core sources) operates on the string
forms of both operands (spec section 4.3) and produces a `TRUE` or
`FALSE` token. -/
def bool_logic (l r : Token) (op : Token) : Token :=
  let ls := castString l
  let rs := castString r
  let b : Bool :=
    match op.type with
    | .GREATER_EQUAL => !(decide (ls < rs))
    | .LESS => decide (ls < rs)
    | .LESS_EQUAL => !(decide (rs < ls))
    | .BANG_EQUAL => decide (ls ≠ rs)
    | .EQUAL_EQUAL => decide (ls = rs)
    | _ => false
  if b then .mk .TRUE "true" (.str "true") op.line
  else .mk .FALSE "false" (.str "false") op.line

/-- The double-quote character. -/
def dq : Char := Char.ofNat 34

/-- `Visitor::visit_literal` (eval.cc): look the token up in the
Environment; a `NIL`-typed token evaluates to nil; an identifier whose
lookup result is `NIL`-typed raises "Undefined variable"; otherwise
the payload (the lookup result's payload for identifiers, the token's
own payload for literals) is re-typed to the corresponding literal
class; a payload that is neither string, numeric, null nor bool
returns the lookup result when that is a `FUN` binding and raises
"Unknown literal type" otherwise. -/
def visit_literal (val : Token) (env : Environment) : Except EvalErr Token :=
  let res := env.getEnv (castString val)
  if val.type = .NIL then .ok (.mk .NIL "nil" .null val.line)
  else
    let litE : Except EvalErr AnyVal :=
      if val.type = .IDENTIFIER || val.type = .C_IDENTIFIER then
        if res.type = .NIL then
          .error (.rte ("Undefined variable " ++ sq ++ castString val ++ sq))
        else .ok res.literal
      else .ok val.literal
    match litE with
    | .error e => .error e
    | .ok lit =>
      match lit with
      | .str s => .ok (.mk .STRINGLITERAL s (.num 0) val.line)
      | .num n => .ok (.mk .NUMERICLITERAL (toString n) (.num n) val.line)
      | .null => .ok (.mk .NIL "nil" .null val.line)
      | .boolean b =>
        .ok (.mk (if b then .TRUE else .FALSE) (if b then "1" else "0") (.boolean b) val.line)
      | _ =>
        if res.type = .FUN then .ok res
        else .error (.rte "Unknown literal type")

mutual

/-- Dispatcher over expression nodes (the virtual `accept` calls of
eval.cc). -/
def evalExpr : Nat → Expr → EvalM Token
  | 0, _ => throwE .fuelOut
  | fuel + 1, e =>
    match e with
    | .literal v => fun s => (visit_literal v s.env, s)
    | .grouping g => visit_grouping fuel g
    | .unary op ex => visit_unary fuel op ex
    | .binary l op r => visit_binary fuel l op r
    | .assign n v => visit_assign fuel n v
    | .ternary c l r => visit_ternary fuel c l r
    | .call n args => visit_call fuel n args

/-- `Visitor::visit_grouping` (eval.cc): evaluate the inner
expression. -/
def visit_grouping : Nat → Expr → EvalM Token
  | 0, _ => throwE .fuelOut
  | fuel + 1, g => evalExpr fuel g

/-- `Visitor::visit_unary` (eval.cc).  `-x` requires a numeric operand
and multiplies by -1; `!x` computes `res` (truthiness for booleans,
zero-test for numbers, emptiness for strings) and returns a token
whose type tag follows `res` but whose lexeme and payload follow
`!res`, exactly as the source does. -/
def visit_unary : Nat → Token → Expr → EvalM Token
  | 0, _, _ => throwE .fuelOut
  | fuel + 1, op, exprE => do
    let right ← evalExpr fuel exprE
    match op.type with
    | .MINUS =>
      if !(isNumber right) then
        throwE (.rte ("Expected a number after " ++ sq ++ "-" ++ sq ++ " operator"))
      else do
        let resAny ← liftE (any_arithmetic right
          (.mk .NUMERICLITERAL "-1" (.num (-1)) op.line) (.mk .STAR "-" (.str "") op.line))
        pure (.mk .NUMERICLITERAL (castNumAnyString resAny) resAny op.line)
    | .BANG => do
      let res ←
        if right.type = .TRUE || right.type = .FALSE then
          pure (truthy right)
        else if isNumber right then do
          let a ← liftE (any_arithmetic right
            (.mk .NUMERICLITERAL "0" (.num 0) op.line) (.mk .EQUAL_EQUAL "==" (.str "") op.line))
          match a with
          | .boolean b => pure b
          | _ => throwE .badCast
        else if isString right then
          pure (castString right).isEmpty
        else
          throwE (.rte ("Expected a number or string after " ++ sq ++ "!" ++ sq ++ " operator"))
      pure (.mk (if res then .TRUE else .FALSE) (if !res then "1" else "0") (.boolean !res) op.line)
    | _ => throwE (.rte "Unknown operator for a unary expression")

/-- `Visitor::visit_binary` (eval.cc).  `??`, `&&`, `||` evaluate the
left operand first and short-circuit as the source does — in the `||`
else-branch the source evaluates the LEFT operand again instead of the
right one.  The remaining operators evaluate both sides and dispatch:
arithmetic via `any_arithmetic`, `+` with its string-concatenation and
quote-stripping cases, `>` via C-string comparison of the string
forms, and the other comparisons via the `_BOOL_LOGIC` macro. -/
def visit_binary : Nat → Expr → Token → Expr → EvalM Token
  | 0, _, _, _ => throwE .fuelOut
  | fuel + 1, lE, op, rE =>
    match op.type with
    | .NULLISH_COAL => do
      let left ← evalExpr fuel lE
      if left.type = .NIL then do
        let right ← evalExpr fuel rE
        pure right
      else pure left
    | .LOG_AND => do
      let left ← evalExpr fuel lE
      if truthy left then do
        let r ← evalExpr fuel rE
        if truthy r then pure (.mk .TRUE "true" (.str "true") op.line)
        else pure (.mk .FALSE "false" (.str "false") op.line)
      else pure Token.default
    | .LOG_OR => do
      let left ← evalExpr fuel lE
      if truthy left then do
        let _right ← evalExpr fuel rE
        pure (.mk .TRUE "true" (.str "true") op.line)
      else do
        let right ← evalExpr fuel lE
        if truthy right then pure (.mk .TRUE "true" (.str "true") op.line)
        else pure (.mk .FALSE "false" (.str "false") op.line)
    | _ => do
      let left ← evalExpr fuel lE
      let right ← evalExpr fuel rE
      match op.type with
      | .MINUS =>
        if !(isNumber left) && !(isNumber right) then
          throwE (.rte ("Expected a number for " ++ sq ++ "-" ++ sq ++ " operator"))
        else do
          let resAny ← liftE (any_arithmetic left right op)
          pure (.mk .NUMERICLITERAL (castNumAnyString resAny) resAny op.line)
      | .PLUS =>
        if (!(isNumber left) && !(isNumber right)) && (!(isString left) && !(isString right)) then
          throwE (.rte ("Expected a number or string for " ++ sq ++ "+" ++ sq ++ " operator"))
        else if isNumber left && isNumber right then do
          let resAny ← liftE (any_arithmetic left right op)
          pure (.mk .NUMERICLITERAL (castNumAnyString resAny) resAny op.line)
        else if isString left && isString right then
          let ls := castString left
          let rs := castString right
          let ls := if ls.front = dq && ls.back = dq then (ls.drop 1).dropRight 1 else ls
          let rs := if rs.front = dq && rs.back = dq then (rs.drop 1).dropRight 1 else rs
          pure (.mk .STRINGLITERAL (ls ++ rs) (.num 0) op.line)
        else if isString left && isNumber right then
          pure (.mk .STRINGLITERAL (castString left ++ castNumberString right) (.num 0) op.line)
        else if isNumber left && isString right then
          pure (.mk .STRINGLITERAL (castNumberString left ++ castString right) (.num 0) op.line)
        else
          throwE (.rte ("Expected a number or string for " ++ sq ++ "+" ++ sq ++ " operator"))
      | .SLASH =>
        if !(isNumber left) && !(isNumber right) then
          throwE (.rte ("Expected a number for " ++ sq ++ "-" ++ sq ++ " operator"))
        else do
          let resAny ← liftE (any_arithmetic left right op)
          pure (.mk .NUMERICLITERAL (castNumAnyString resAny) resAny op.line)
      | .STAR =>
        if !(isNumber left) && !(isNumber right) then
          throwE (.rte ("Expected a number for " ++ sq ++ "*" ++ sq ++ " operator"))
        else do
          let resAny ← liftE (any_arithmetic left right op)
          pure (.mk .NUMERICLITERAL (castNumAnyString resAny) resAny op.line)
      | .GREATER =>
        if decide (castString right < castString left) then
          pure (.mk .TRUE "true" (.str "true") op.line)
        else pure (.mk .FALSE "false" (.str "false") op.line)
      | .GREATER_EQUAL => pure (bool_logic left right op)
      | .LESS => pure (bool_logic left right op)
      | .LESS_EQUAL => pure (bool_logic left right op)
      | .BANG_EQUAL => pure (bool_logic left right op)
      | .EQUAL_EQUAL => pure (bool_logic left right op)
      | _ => throwE (.rte "Unknown operator for a binary expression")

/-- `Visitor::visit_assign` (eval.cc): evaluate the right-hand side,
`setEnv` it under the name, and return `getEnv` of the name. -/
def visit_assign : Nat → Token → Expr → EvalM Token
  | 0, _, _ => throwE .fuelOut
  | fuel + 1, name, valueE => do
    let v ← evalExpr fuel valueE
    fun s =>
      let env2 := s.env.setEnv3 (castString name) v (name.type = .C_IDENTIFIER)
      (.ok (env2.getEnv (castString name)), { s with env := env2 })

/-- `Visitor::visit_ternary` (eval.cc): evaluate the condition; the
truthy branch yields the left expression, else the right. -/
def visit_ternary : Nat → Expr → Expr → Expr → EvalM Token
  | 0, _, _, _ => throwE .fuelOut
  | fuel + 1, c, l, r => do
    let cond ← evalExpr fuel c
    if truthy cond then evalExpr fuel l
    else evalExpr fuel r

/-- `Visitor::visit_call` (eval.cc): evaluate the callee (a `NIL`
result raises "Undefined function"), evaluate each argument, then
execute the block held in the callee's payload; a
`StmtReturnException` is caught and its carried value returned, normal
completion yields the default token.  The arguments are never bound to
parameters. -/
def visit_call : Nat → Expr → List Expr → EvalM Token
  | 0, _, _ => throwE .fuelOut
  | fuel + 1, nameE, argsE => do
    let name ← evalExpr fuel nameE
    if name.type = .NIL then
      throwE (.rte ("Undefined function " ++ sq ++ name.lexeme ++ sq))
    else do
      let _args ← evalArgs fuel argsE
      match name.literal with
      | .fn blk => fun s =>
        match visit_block_stmt fuel blk s with
        | (.ok _, s') => (.ok Token.default, s')
        | (.error (.returnSig t), s') => (.ok t, s')
        | (.error e, s') => (.error e, s')
      | _ => throwE .badCast

/-- The argument-evaluation loop of `Visitor::visit_call`. -/
def evalArgs : Nat → List Expr → EvalM (List Token)
  | 0, _ => throwE .fuelOut
  | _ + 1, [] => pure []
  | fuel + 1, a :: rest => do
    let t ← evalExpr fuel a
    let ts ← evalArgs fuel rest
    pure (t :: ts)

/-- Dispatcher over statement nodes. -/
def evalStmt : Nat → Stmt → EvalM Token
  | 0, _ => throwE .fuelOut
  | fuel + 1, .stmtExpr e => visit_expr_stmt fuel e
  | fuel + 1, .stmtPrint e => visit_print_stmt fuel e
  | fuel + 1, .stmtReturn e => visit_return_stmt fuel e

/-- `Visitor::visit_expr_stmt` (eval.cc): evaluate the expression and
return its value. -/
def visit_expr_stmt : Nat → Option Expr → EvalM Token
  | 0, _ => throwE .fuelOut
  | fuel + 1, some e => evalExpr fuel e
  | _ + 1, none => throwE .nullDeref

/-- `Visitor::visit_print_stmt` (eval.cc): evaluate, take the string
form via `castAnyString`, index its first character (`.at(0)` raises
`std::out_of_range` when the string form is empty), strip one pair of
surrounding double quotes if present, write the line to stdout and
return the value. -/
def visit_print_stmt : Nat → Option Expr → EvalM Token
  | 0, _ => throwE .fuelOut
  | fuel + 1, some e => fun s =>
    match evalExpr fuel e s with
    | (.error err, s') => (.error err, s')
    | (.ok val, s') =>
      let res := castAnyString val
      if res.length = 0 then (.error .outOfRange, s')
      else
        let res2 := if res.front = dq && res.back = dq then (res.drop 1).dropRight 1 else res
        (.ok val, { s' with output := s'.output ++ [res2] })
  | _ + 1, none => throwE .nullDeref

/-- `Visitor::visit_return_stmt` (eval.cc): evaluate the expression
and unwind with a `StmtReturnException` carrying the value; never
returns normally. -/
def visit_return_stmt : Nat → Option Expr → EvalM Token
  | 0, _ => throwE .fuelOut
  | fuel + 1, some e => do
    let val ← evalExpr fuel e
    throwE (.returnSig val)
  | _ + 1, none => throwE .nullDeref

/-- Dispatcher over declaration nodes. -/
def evalDecl : Nat → Decl → EvalM (List Token)
  | 0, _ => throwE .fuelOut
  | fuel + 1, .declStmt s => visit_decl_stmt fuel s
  | fuel + 1, .declVar idt e => visit_decl_var fuel idt e
  | fuel + 1, .declFunc n ps blk => visit_decl_func fuel n ps blk
  | fuel + 1, .declBlock b => visit_block_stmt fuel b

/-- `Visitor::visit_decl_stmt` (eval.cc): delegate to the statement
and wrap its value in a singleton vector. -/
def visit_decl_stmt : Nat → Stmt → EvalM (List Token)
  | 0, _ => throwE .fuelOut
  | fuel + 1, s => do
    let t ← evalStmt fuel s
    pure [t]

/-- `Visitor::visit_decl_var` (eval.cc): with an initializer
expression present the expression is evaluated and its value pushed to
the result vector — the identifier is NOT bound via `setEnv` on this
branch; with no initializer a `NIL` "null" token is bound under the
identifier's lexeme and pushed. -/
def visit_decl_var : Nat → Token → Option Expr → EvalM (List Token)
  | 0, _, _ => throwE .fuelOut
  | fuel + 1, identifier, e =>
    match e with
    | some ex => do
      let t ← evalExpr fuel ex
      pure [t]
    | none => fun s =>
      let niltok : Token := .mk .NIL "null" .null identifier.line
      let env2 := s.env.setEnv3 identifier.lexeme niltok (identifier.type = .C_IDENTIFIER)
      (.ok [niltok], { s with env := env2 })

/-- `Visitor::visit_decl_func` (eval.cc): raise "already defined" when
the name's lookup is not `NIL`-typed; otherwise bind the name to a
`FUN` token holding the block (or to a `NIL` "null" token when the
declaration has no block) and return the name token. -/
def visit_decl_func : Nat → Token → List Token → Option Block → EvalM (List Token)
  | 0, _, _, _ => throwE .fuelOut
  | _ + 1, name, _params, blk => fun s =>
    if (s.env.getEnv (castString name)).type ≠ .NIL then
      (.error (.rte ("Function " ++ sq ++ name.lexeme ++ sq ++ " already defined")), s)
    else
      match blk with
      | some b =>
        let env2 := s.env.setEnv3 (castString name) (.mk .FUN "function" (.fn b) name.line) false
        (.ok [name], { s with env := env2 })
      | none =>
        let env2 := s.env.setEnv3 (castString name) (.mk .NIL "null" .null name.line) false
        (.ok [name], { s with env := env2 })

/-- `Visitor::visit_block_stmt` (eval.cc): `addChild` a scope, then
evaluate each declaration accumulating the token vectors, then
`removeChild` the scope.  There is no try/catch: when a declaration
raises (a runtime error or a `StmtReturnException`), the exception
propagates and `removeChild` is skipped. -/
def visit_block_stmt : Nat → Block → EvalM (List Token)
  | 0, _ => throwE .fuelOut
  | fuel + 1, b => fun s =>
    match evalDecls fuel b.decls { s with env := s.env.addChild } with
    | (.ok toks, s') => (.ok toks, { s' with env := s'.env.removeChild })
    | (.error e, s') => (.error e, s')

/-- The declaration loop shared by `visit_block_stmt` and
`visit_program` (eval.cc): evaluate each declaration in order and
concatenate the token vectors. -/
def evalDecls : Nat → List Decl → EvalM (List Token)
  | 0, _ => throwE .fuelOut
  | _ + 1, [] => pure []
  | fuel + 1, d :: rest => do
    let ts ← evalDecl fuel d
    let more ← evalDecls fuel rest
    pure (ts ++ more)

end

/-- `Visitor::visit_program` (eval.cc): evaluate each top-level
declaration in order, concatenating the result vectors; no scope is
pushed. -/
def visit_program (fuel : Nat) (p : Program) : EvalM (List Token) :=
  match p with
  | .mk decls => evalDecls fuel decls

/-- The spec-side description of `Environment::get` in its own words
(section 4.1): search starting at the root scope, recursing from each
scope into its child, and return the binding of the first — outermost
— scope that contains the name; if never found, return the sentinel
`Token()`.  Stated over the root-first frame list of the chain. -/
def getEnvSpec (env : Environment) (name : String) : Token :=
  (env.frames.findSome? (fun f => f.lookup name)).getD Token.default

/-- `var` keyword token. -/
def kwVar : Token := .mk .VAR "var" .empty 1

/-- `print` keyword token. -/
def kwPrint : Token := .mk .PRINT "print" .empty 1

/-- `fun` keyword token. -/
def kwFun : Token := .mk .FUN "fun" .empty 1

/-- `return` keyword token. -/
def kwReturn : Token := .mk .RETURN "return" .empty 1

/-- Identifier token `x`. -/
def idX : Token := .mk .IDENTIFIER "x" .empty 1

/-- Identifier token `f`. -/
def idF : Token := .mk .IDENTIFIER "f" .empty 1

/-- Identifier token `a`. -/
def idA : Token := .mk .IDENTIFIER "a" .empty 1

/-- Identifier token `b`. -/
def idB : Token := .mk .IDENTIFIER "b" .empty 1

/-- Identifier token `c`. -/
def idC : Token := .mk .IDENTIFIER "c" .empty 1

/-- Numeric literal token `10`. -/
def num10 : Token := .mk .NUMERICLITERAL "10" (.num 10) 1

/-- Numeric literal token `5`. -/
def num5 : Token := .mk .NUMERICLITERAL "5" (.num 5) 1

/-- Numeric literal token `6`. -/
def num6 : Token := .mk .NUMERICLITERAL "6" (.num 6) 1

/-- Numeric literal token `42`. -/
def num42 : Token := .mk .NUMERICLITERAL "42" (.num 42) 1

/-- Semicolon token. -/
def semi : Token := .mk .SEMICOLON ";" .empty 1

/-- `=` token. -/
def eqT : Token := .mk .EQUAL "=" .empty 1

/-- `+` token. -/
def plusT : Token := .mk .PLUS "+" .empty 1

/-- `*` token. -/
def starT : Token := .mk .STAR "*" .empty 1

/-- `||` token. -/
def orT : Token := .mk .LOG_OR "||" .empty 1

/-- `(` token. -/
def lpar : Token := .mk .LEFT_PAREN "(" .empty 1

/-- `)` token. -/
def rpar : Token := .mk .RIGHT_PAREN ")" .empty 1

/-- Open-brace token. -/
def lbrace : Token := .mk .LEFT_BRACE "\x7b" .empty 1

/-- Close-brace token. -/
def rbrace : Token := .mk .RIGHT_BRACE "\x7d" .empty 1

/-- `false` literal token carrying a boolean payload. -/
def falseB : Token := .mk .FALSE "false" (.boolean false) 1

/-- `true` literal token carrying a boolean payload. -/
def trueB : Token := .mk .TRUE "true" (.boolean true) 1

/-- The global environment of a fresh process: one empty root scope. -/
def env0 : Environment := .leafScope []

/-- Token stream of `var x = 10; x = x + 5; print(x);`. -/
def toksC2 : List Token :=
  [kwVar, idX, eqT, num10, semi, idX, eqT, idX, plusT, num5, semi,
   kwPrint, lpar, idX, rpar, semi]

/-- Token stream of the function scenario from spec section 8. -/
def toksC5 : List Token :=
  [kwFun, idF, lpar, rpar, lbrace, kwReturn, num42, semi, rbrace,
   kwPrint, lpar, idF, lpar, rpar, rpar, semi]

/-- Token stream of `a + b * c`. -/
def toksPrec : List Token := [idA, plusT, idB, starT, idC]

/-- Token stream of `(a + b) * c`. -/
def toksParen : List Token := [lpar, idA, plusT, idB, rpar, starT, idC]

/-- Token stream of a block containing a nested block. -/
def toksNested : List Token :=
  [lbrace, num5, semi, lbrace, num6, semi, rbrace, rbrace]

/-- Token stream of the same declarations in one flat block. -/
def toksFlat : List Token := [lbrace, num5, semi, num6, semi, rbrace]

/-- A string is empty exactly when its length is zero. -/
theorem strLenZero (s : String) : s.length = 0 ↔ s = "" := by
  cases s with
  | mk data => cases data <;> simp [String.length, String.ext_iff]

/-- C1: refuted on the code — evaluating the Block `{ return 5; }`
from the root environment (scope depth 1) exits via the ReturnSignal,
and because `visit_block_stmt` has no try/catch the `removeChild` that
would match the `addChild` is skipped: the propagated state's scope
depth is 2, not the pre-entry 1. -/
theorem block_scope_not_popped_on_return :
    visit_block_stmt 10 (.mk [.declStmt (.stmtReturn (some (.literal num5)))])
        ⟨env0, []⟩ =
      (.error (.returnSig num5), ⟨.withChild [] (.leafScope []), []⟩) ∧
    env0.depth = 1 ∧ (Environment.withChild [] (.leafScope [])).depth = 2 :=
  ⟨rfl, rfl, rfl⟩

/-- C2: refuted on the code — parsing `var x = 10; x = x + 5;
print(x);` with the empty global environment of a fresh process fails:
nothing binds names at parse time, so the parse-time declared-check
inside `Parser::assignment` (reached already for the initializer
`x = 10` of the declaration) raises the "Undefined variable"
ParserException, and `parse()` returns null instead of a Program. -/
theorem var_assign_print_program_fails_to_parse :
    Parser.program 30 env0 ⟨toksC2, 0⟩ =
      .error (.err ("Undefined variable " ++ sq ++ "x" ++ sq)) ∧
    Parser.parse 30 toksC2 env0 = none :=
  ⟨rfl, rfl⟩

/-- C3: refuted on the code — evaluating `DeclVar x (Literal 5)` (an
initializer expression is present) evaluates the initializer and
returns its value, but leaves the environment unchanged: `x` is still
looked up as the sentinel `Token()` afterwards, i.e. the identifier is
not bound. -/
theorem decl_var_initializer_not_bound :
    visit_decl_var 10 idX (some (.literal num5)) ⟨env0, []⟩ =
      (.ok [num5], ⟨env0, []⟩) ∧
    env0.getEnv "x" = Token.default :=
  ⟨rfl, rfl⟩

/-- C4: refuted on the code — evaluating the `||` expression whose
left operand is the (falsy) literal `false` and whose right operand is
the (truthy) literal `true` yields a FALSE token, because the
else-branch of the LOG_OR case re-evaluates the left operand instead
of the right one. -/
theorem log_or_false_true_evaluates_false :
    evalExpr 10 (.binary (.literal falseB) orT (.literal trueB)) ⟨env0, []⟩ =
      (.ok (.mk .FALSE "false" (.str "false") 1), ⟨env0, []⟩) ∧
    truthy (.mk .FALSE "false" (.str "false") 1) = false :=
  ⟨rfl, rfl⟩

/-- C5: refuted on the code — parsing the token stream of
`fun f() { return 42; } print(f());` fails: `Parser::program` has no
case for the `fun` keyword, the tokens fall through to
`statement_expression`, `primary` matches nothing, and the `consume`
of the semicolon raises a ParserException, so `parse()` returns null
and no function declaration node is ever produced. -/
theorem fun_declaration_fails_to_parse :
    Parser.program 30 env0 ⟨toksC5, 0⟩ =
      .error (.err "Expected ; after expression") ∧
    Parser.parse 30 toksC5 env0 = none :=
  ⟨rfl, rfl⟩

/-- C6 counterexample: parsing `(a + b) * c` yields
`Binary(Binary(a,+,b), *, c)` — the parenthesized subexpression is
returned directly by `Parser::primary` and is NOT wrapped in a
`Grouping` node, contrary to the claim's stated shape. -/
theorem paren_parse_has_no_grouping_node :
    Parser.expression 30 env0 ⟨toksParen, 0⟩ =
      .ok (some (.binary (.binary (.literal idA) plusT (.literal idB)) starT
        (.literal idC)), ⟨toksParen, 7⟩) ∧
    (Expr.binary (.binary (.literal idA) plusT (.literal idB)) starT (.literal idC)) ≠
      (Expr.binary (.grouping (.binary (.literal idA) plusT (.literal idB))) starT
        (.literal idC)) :=
  ⟨rfl, by simp⟩

/-- C6 as amended: `a + b * c` parses as `Binary(a, +, Binary(b,*,c))`
(multiplication binds tighter than addition) and `(a + b) * c` parses
as `Binary(Binary(a,+,b), *, c)` — the parenthesization groups the sum
under the product, but no `Grouping` node is constructed. -/
theorem precedence_parse_shapes :
    Parser.expression 30 env0 ⟨toksPrec, 0⟩ =
      .ok (some (.binary (.literal idA) plusT
        (.binary (.literal idB) starT (.literal idC))), ⟨toksPrec, 5⟩) ∧
    Parser.expression 30 env0 ⟨toksParen, 0⟩ =
      .ok (some (.binary (.binary (.literal idA) plusT (.literal idB)) starT
        (.literal idC)), ⟨toksParen, 7⟩) :=
  ⟨rfl, rfl⟩

/-- C7 counterexample: with `x` bound to a legitimate nil value (a
NIL-typed token whose lexeme is "nil"), evaluating the identifier
literal `x` still raises "Undefined variable", because
`visit_literal` inspects only the type tag of the lookup result,
never its lexeme. -/
theorem nil_binding_reported_undefined :
    visit_literal (.mk .IDENTIFIER "x" .empty 1)
        (.leafScope [("x", .mk .NIL "nil" .null 1)]) =
      .error (.rte ("Undefined variable " ++ sq ++ "x" ++ sq)) :=
  rfl

/-- C7 as amended: evaluating an identifier literal raises the runtime
error "Undefined variable X" whenever the Environment lookup result is
NIL-typed — whether it is the absent-binding sentinel or a legitimate
nil binding; the lexeme is never inspected. -/
theorem visit_literal_undefined_on_nil_typed_lookup
    (name : String) (line : Nat) (env : Environment)
    (h : (env.getEnv name).type = .NIL) :
    visit_literal (.mk .IDENTIFIER name .empty line) env =
      .error (.rte ("Undefined variable " ++ sq ++ name ++ sq)) := by
  rcases hres : env.getEnv name with ⟨t, lx, lit, ln⟩
  rw [hres] at h
  simp only [Token.type] at h
  subst h
  simp [visit_literal, castString, Token.lexeme, Token.type, hres]

/-- Witness for C7's theorem at a concrete input: looking up `y` in
the empty root scope yields the NIL-typed sentinel, and the evaluation
raises the undefined-variable error. -/
theorem visit_literal_undefined_on_nil_typed_lookup_witness :
    visit_literal (.mk .IDENTIFIER "y" .empty 3) (.leafScope []) =
      .error (.rte ("Undefined variable " ++ sq ++ "y" ++ sq)) :=
  visit_literal_undefined_on_nil_typed_lookup "y" 3 (.leafScope []) rfl

/-- C8: `Environment::getEnv` equals the spec-side lookup: the first
frame of the root-first scope chain that contains the name supplies
the binding (outer scopes are favored over inner ones), and when no
frame contains it the sentinel `Token()` is returned. -/
theorem getEnv_outermost_scope_first :
    ∀ (env : Environment) (name : String),
      env.getEnv name = getEnvSpec env name := by
  intro env name
  induction env with
  | leafScope vs =>
    cases h : vs.lookup name <;>
      simp [Environment.getEnv, getEnvSpec, Environment.frames, List.findSome?, h]
  | withChild vs child ih =>
    cases h : vs.lookup name <;>
      simp [Environment.getEnv, getEnvSpec, Environment.frames, List.findSome?, h, ih]

/-- C9: a nested block is spliced — parsing a block containing `5;`
followed by an inner block containing `6;` yields exactly the same
Program as parsing the flat block `5; 6;`: a single Block node whose
declaration list holds the inner declarations directly (no child Block
node), so evaluation pushes a single scope for the whole region. -/
theorem nested_block_declarations_spliced :
    Parser.parse 30 toksNested env0 =
      some (.mk [.declBlock (.mk [.declStmt (.stmtExpr (some (.literal num5))),
        .declStmt (.stmtExpr (some (.literal num6)))])]) ∧
    Parser.parse 30 toksFlat env0 = Parser.parse 30 toksNested env0 :=
  ⟨rfl, rfl⟩

/-- C10: when the printed value's string form is empty,
`visit_print_stmt` raises the out-of-range exception (from indexing
the first character during quote stripping) instead of printing an
empty line; when the string form is non-empty it prints the
quote-stripped form and returns the value. -/
theorem print_empty_string_raises_out_of_range
    (fuel : Nat) (e : Expr) (s : EvalState) (val : Token) (s' : EvalState)
    (hev : evalExpr fuel e s = (.ok val, s')) :
    (castAnyString val = "" →
      visit_print_stmt (fuel + 1) (some e) s = (.error .outOfRange, s')) ∧
    (castAnyString val ≠ "" →
      visit_print_stmt (fuel + 1) (some e) s =
        (.ok val, { s' with output := s'.output ++
          [if (castAnyString val).front = dq && (castAnyString val).back = dq
           then ((castAnyString val).drop 1).dropRight 1
           else castAnyString val] })) := by
  constructor
  · intro h0
    simp [visit_print_stmt, hev, h0]
  · intro hne
    simp [visit_print_stmt, hev, strLenZero, hne]

/-- Witness for C10's theorem at a concrete input: printing the empty
string literal raises the out-of-range exception. -/
theorem print_empty_string_raises_out_of_range_witness :
    visit_print_stmt 4 (some (.literal (.mk .STRINGLITERAL "" (.str "") 1)))
        ⟨.leafScope [], []⟩ = (.error .outOfRange, ⟨.leafScope [], []⟩) :=
  (print_empty_string_raises_out_of_range 3
    (.literal (.mk .STRINGLITERAL "" (.str "") 1)) ⟨.leafScope [], []⟩
    (.mk .STRINGLITERAL "" (.num 0) 1) ⟨.leafScope [], []⟩ rfl).1 rfl

end Rift
